import Mathlib

/-!
Verification of the CSV_Filter_Project row-transformation engine.

Shallow embedding of the vendor transformers and shared helpers:
  * `backend/src/utils/transformers/helpers.js` (transformUPC, transformTAX1,
    preserveDepartmentID, parseNumeric, normalizeDate, getColumnValue)
  * `backend/src/utils/transformers/agne.js` (AGNE transformRow / getOutputColumns)
  * `backend/src/utils/transformers/pine-state-spirits.js`
    (padUPC, formatDateDDMMYYYY, formatPrice, transformRow / getOutputColumns)
  * `backend/src/utils/transformers/vendorRegistry.js` (getVendorTransformer)
  * `backend/src/utils/transformer.js` (vendor dispatch wrapper)

Modelling conventions:
  * A raw cell value is a `String`; an absent column (JS `undefined`) is `none`
    of `Option String`.
  * Rows and the deposit mapping are association lists `List (String × String)`
    with JS-object lookup semantics (first binding wins).
  * JS numbers produced by `parseFloat` are modelled exactly as scaled decimal
    integers (`Dec10`, value `num / 10 ^ exp`); `Dec10.val` is the rational
    value used in theorem statements.  `Number.prototype.toString` is modelled
    for such finite decimals (JS switches to exponential notation only beyond
    1e21, far outside the behavior the claims exercise).
  * String operations (trim, split, case mapping) are defined on `.data`
    character lists so that every definition evaluates by kernel reduction.
  * The AGNE output row maps column names to `Option String`, since the JS code
    can store `undefined` in `transformedRow.UPC`; the Pine State output row
    only ever stores strings, so it maps column names to `String`.
-/

/-- JS truthiness of a string-or-`undefined` value: `undefined` and `""` are
falsy, every other string is truthy. -/
def jsTruthy (v : Option String) : Bool :=
  v.getD "" != ""

/-- JS `v || ''`: the value if truthy, otherwise the empty string. -/
def orEmpty (v : Option String) : String :=
  v.getD ""

/-- JS `a || b` on string-or-`undefined` values. -/
def jsOr (a b : Option String) : Option String :=
  if jsTruthy a then a else b

/-- Left-to-right JS `a || b || c || ...` chain starting from `undefined`. -/
def jsOrChain (l : List (Option String)) : Option String :=
  l.foldl jsOr none

/-- JS string interpolation of a string-or-`undefined` value
(`undefined` prints as "undefined"). -/
def jsShow (v : Option String) : String :=
  match v with
  | none => "undefined"
  | some s => s

/-- JS `String.prototype.trim`. -/
def jsTrim (s : String) : String :=
  String.mk (((s.data.dropWhile Char.isWhitespace).reverse.dropWhile Char.isWhitespace).reverse)

/-- JS `String.prototype.toLowerCase` (ASCII range, which covers the column
names this code compares). -/
def strLower (s : String) : String :=
  String.mk (s.data.map Char.toLower)

/-- JS `String.prototype.toUpperCase` (ASCII range). -/
def strUpper (s : String) : String :=
  String.mk (s.data.map Char.toUpper)

/-- helpers.js `getColumnValue(row, columnName)`: exact-key lookup first, then
first case-insensitive match, else `undefined`. -/
def getColumnValue (row : List (String × String)) (columnName : String) : Option String :=
  match row.find? (fun p => decide (p.1 = columnName)) with
  | some p => some p.2
  | none => (row.find? (fun p => decide (strLower p.1 = strLower columnName))).map (·.2)

/-- Generic JS-object lookup on an output row / deposit mapping association
list. -/
def getCell {α : Type} (l : List (String × α)) (k : String) : Option α :=
  (l.find? (fun p => decide (p.1 = k))).map (·.2)

/-- Numeric value of a list of decimal digit characters. -/
def digitsVal (cs : List Char) : ℕ :=
  cs.foldl (fun a c => 10 * a + (c.toNat - 48)) 0

/-- JS `parseInt` on an all-digit capture group. -/
def parseIntDigits (s : String) : ℕ :=
  digitsVal s.data

/-- `padStart(w, '0')` on a string. -/
def padStartZeros (s : String) (w : ℕ) : String :=
  String.mk (List.replicate (w - s.length) '0') ++ s

/-- A JS number arising from parsing a decimal literal, kept exactly as a
scaled integer: the value is `num / 10 ^ exp`. -/
structure Dec10 where
  num : ℤ
  exp : ℕ
  deriving DecidableEq, Repr

/-- Rational value of a `Dec10`. -/
def Dec10.val (q : Dec10) : ℚ :=
  (q.num : ℚ) / 10 ^ q.exp

/-- JS `q > 0` on a parsed number. -/
def Dec10.isPos (q : Dec10) : Bool :=
  decide (0 < q.num)

/-- JS `q > 1` on a parsed number. -/
def Dec10.gtOne (q : Dec10) : Bool :=
  decide ((10 : ℤ) ^ q.exp < q.num)

/-- JS `parseFloat`: skip leading whitespace, optional sign, decimal digits
with optional fraction and exponent; `NaN` (here `none`) when no mantissa
digit is present. -/
def jsParseFloat (s : String) : Option Dec10 :=
  let cs0 := s.data.dropWhile Char.isWhitespace
  let neg : Bool := match cs0 with
    | '-' :: _ => true
    | _ => false
  let cs1 := match cs0 with
    | '-' :: r => r
    | '+' :: r => r
    | r => r
  let ipart := cs1.takeWhile Char.isDigit
  let cs2 := cs1.dropWhile Char.isDigit
  let fpart := match cs2 with
    | '.' :: r => r.takeWhile Char.isDigit
    | _ => []
  let cs3 := match cs2 with
    | '.' :: r => r.dropWhile Char.isDigit
    | _ => cs2
  if ipart.isEmpty && fpart.isEmpty then none
  else
    let mant : ℕ := digitsVal (ipart ++ fpart)
    let inum : ℤ := if neg then -(mant : ℤ) else (mant : ℤ)
    let expv : ℤ := match cs3 with
      | e :: r =>
        if e = 'e' ∨ e = 'E' then
          let esign : ℤ := match r with
            | '-' :: _ => -1
            | _ => 1
          let r2 := match r with
            | '-' :: rr => rr
            | '+' :: rr => rr
            | rr => rr
          let ed := r2.takeWhile Char.isDigit
          if ed.isEmpty then 0 else esign * (digitsVal ed : ℤ)
        else 0
      | [] => 0
    if 0 ≤ expv then some ⟨inum * 10 ^ expv.toNat, fpart.length⟩
    else some ⟨inum, fpart.length + (-expv).toNat⟩

/-- helpers.js `parseNumeric(value)`: `null`/`undefined`/`''` give `null`;
otherwise every character except digits, `.` and `-` is stripped and the rest
is parsed with `parseFloat` (`NaN` gives `null`). -/
def parseNumeric (value : Option String) : Option Dec10 :=
  match value with
  | none => none
  | some s =>
    if s = "" then none
    else jsParseFloat (String.mk (s.data.filter (fun c => c.isDigit ∨ c = '.' ∨ c = '-')))

/-- Remove factors of ten shared between a scaled integer and its decimal
exponent (fuel-driven; called with `exp` as fuel). -/
def stripTens : ℤ → ℕ → ℕ → ℤ × ℕ
  | n, e, 0 => (n, e)
  | n, e, fuel + 1 => if e = 0 ∨ ¬ n % 10 = 0 then (n, e) else stripTens (n / 10) (e - 1) fuel

/-- JS `Number.prototype.toString` on a parsed finite decimal: shortest
decimal form, `-0` printing as "0". -/
def qToString (q : Dec10) : String :=
  let p := stripTens q.num q.exp q.exp
  let a := p.1.natAbs
  let sign := if p.1 < 0 then "-" else ""
  if p.2 = 0 then sign ++ Nat.repr a
  else sign ++ Nat.repr (a / 10 ^ p.2) ++ "." ++ padStartZeros (Nat.repr (a % 10 ^ p.2)) p.2

/-- JS `toFixed(2)` for a nonnegative parsed decimal: round to the nearest
hundredth, ties away from zero. -/
def toFixed2Abs (q : Dec10) : String :=
  let scaled := q.num.toNat * 100
  let d := 10 ^ q.exp
  let n := scaled / d + (if d ≤ 2 * (scaled % d) then 1 else 0)
  Nat.repr (n / 100) ++ "." ++ padStartZeros (Nat.repr (n % 100)) 2

/-- JS `Number.prototype.toFixed(2)` on a parsed decimal. -/
def toFixed2 (q : Dec10) : String :=
  if q.num < 0 then "-" ++ toFixed2Abs ⟨-q.num, q.exp⟩ else toFixed2Abs q

/-- helpers.js `transformUPC(upc)`: falsy input returned unchanged; otherwise
trim and strip exactly one leading `'0'` if present. -/
def transformUPC (upc : Option String) : Option String :=
  if ¬ jsTruthy upc then upc
  else
    match (jsTrim (orEmpty upc)).data with
    | c :: rest => if c = '0' then some (String.mk rest) else some (jsTrim (orEmpty upc))
    | [] => some (jsTrim (orEmpty upc))

/-- helpers.js `transformTAX1(tax1)`: falsy gives `''`; `Y`/`N` (trimmed,
upper-cased) give `'1'`/`''`; anything else is passed through with a warning. -/
def transformTAX1 (tax1 : Option String) : String × Option String :=
  if ¬ jsTruthy tax1 then ("", none)
  else
    let t := strUpper (jsTrim (orEmpty tax1))
    if t = "Y" then ("1", none)
    else if t = "N" then ("", none)
    else (orEmpty tax1,
      some ("TAX1 has unexpected value: \"" ++ orEmpty tax1 ++ "\" (expected Y or N)"))

/-- helpers.js `preserveDepartmentID(incomingDept, originalDept)`. -/
def preserveDepartmentID (incomingDept originalDept : Option String) : String × Option String :=
  if ¬ jsTruthy originalDept then (orEmpty incomingDept, none)
  else if incomingDept ≠ originalDept then
    (orEmpty originalDept,
      some ("Department ID changed from \"" ++ jsShow originalDept ++ "\" to \"" ++
        jsShow incomingDept ++ "\" - using original value"))
  else (orEmpty incomingDept, none)

/-- Split a character list on a single separator character (the `split`
behavior of the `-` and `/` date regexes). -/
def splitSepAux (sep : Char) : List Char → List Char → List (List Char)
  | [], acc => [acc.reverse]
  | c :: r, acc =>
    if c = sep then acc.reverse :: splitSepAux sep r [] else splitSepAux sep r (c :: acc)

/-- Split a string on a separator character, yielding the capture groups. -/
def splitSep (sep : Char) (s : String) : List (List Char) :=
  splitSepAux sep s.data []

/-- Regex digit group `\d{lo,hi}`: all characters are digits and the length is
within `[lo, hi]`. -/
def digitGroup (cs : List Char) (lo hi : ℕ) : Bool :=
  decide (lo ≤ cs.length ∧ cs.length ≤ hi) && cs.all Char.isDigit

/-- Two-digit-year widening used by the `DD/MM/YY` and `DD-MM-YY` patterns of
helpers.js `normalizeDate`: year `< 50` gives `20YY`, otherwise `19YY`. -/
def agneWidenYear (c : List Char) : String :=
  (if digitsVal c < 50 then "20" else "19") ++ padStartZeros (String.mk c) 2

/-- helpers.js `normalizeDate` pattern table, in source priority order.  On a
match the result is `(year, month, day)` as captured strings, with two-digit
years already widened. -/
def agneDateMatch (s : String) : Option (String × String × String) :=
  -- 1. YYYYMMDD (compact)
  if s.data.length = 8 && s.data.all Char.isDigit then
    some (String.mk (s.data.take 4), String.mk ((s.data.drop 4).take 2),
      String.mk (s.data.drop 6))
  else
    match splitSep '-' s with
    -- 2. YYYY-MM-DD
    | [a, b, c] =>
      if digitGroup a 4 4 && digitGroup b 1 2 && digitGroup c 1 2 then
        some (String.mk a, String.mk b, String.mk c)
      -- 4. DD-MM-YYYY
      else if digitGroup a 1 2 && digitGroup b 1 2 && digitGroup c 4 4 then
        some (String.mk c, String.mk b, String.mk a)
      -- 6. DD-MM-YY
      else if digitGroup a 1 2 && digitGroup b 1 2 && digitGroup c 2 2 then
        some (agneWidenYear c, String.mk b, String.mk a)
      else none
    | _ =>
      match splitSep '/' s with
      -- 3. MM/DD/YYYY
      | [a, b, c] =>
        if digitGroup a 1 2 && digitGroup b 1 2 && digitGroup c 4 4 then
          some (String.mk c, String.mk a, String.mk b)
        -- 5. DD/MM/YY
        else if digitGroup a 1 2 && digitGroup b 1 2 && digitGroup c 2 2 then
          some (agneWidenYear c, String.mk b, String.mk a)
        else none
      | _ => none

/-- helpers.js `normalizeDate(dateStr)`: falsy gives `('', null)`; otherwise the
trimmed string is matched against the pattern table; on match, month and day
are zero-padded and checked against `1 ≤ month ≤ 12`, `1 ≤ day ≤ 31`, emitting
`YYYYMMDD` on success and an `Invalid date` warning on a failed range check;
with no pattern match the result is a `Could not parse date` warning. -/
def agneNormalizeDate (dateStr : Option String) : String × Option String :=
  match dateStr with
  | none => ("", none)
  | some raw =>
    if raw = "" then ("", none)
    else
      match agneDateMatch (jsTrim raw) with
      | none => ("", some ("Could not parse date: \"" ++ raw ++ "\""))
      | some (y, m, d) =>
        let month := padStartZeros m 2
        let day := padStartZeros d 2
        let monthNum := parseIntDigits month
        let dayNum := parseIntDigits day
        if monthNum < 1 ∨ 12 < monthNum ∨ dayNum < 1 ∨ 31 < dayNum then
          ("", some ("Invalid date: \"" ++ raw ++ "\""))
        else (y ++ month ++ day, none)

example : agneNormalizeDate (some "20251201") = ("20251201", none) := by decide
example : agneNormalizeDate (some "2025-12-1") = ("20251201", none) := by decide
example : agneNormalizeDate (some "12/1/2025") = ("20251201", none) := by decide
example : agneNormalizeDate (some "1-12-2025") = ("20251201", none) := by decide
example : agneNormalizeDate (some "1/12/25") = ("20251201", none) := by decide
example : agneNormalizeDate (some "2025-13-5") =
    ("", some "Invalid date: \"2025-13-5\"") := by decide
example : parseNumeric (some "$1.20") = some ⟨120, 2⟩ := by decide
example : parseNumeric (some "2") = some ⟨2, 0⟩ := by decide
example : (parseNumeric (some "0.77")).map qToString = some "0.77" := by decide
example : (parseNumeric (some "0.30")).map qToString = some "0.3" := by decide
example : (jsParseFloat "8.52E+11").map qToString = some "852000000000" := by decide
example : (parseNumeric (some "45.1")).map toFixed2 = some "45.10" := by decide
example : (parseNumeric (some "41")).map toFixed2 = some "41.00" := by decide
example : transformUPC (some "012345") = some "12345" := by decide
example : transformUPC (some " 1") = some "1" := by decide
example : transformTAX1 (some "X") =
    ("X", some "TAX1 has unexpected value: \"X\" (expected Y or N)") := by decide

/-- Options record passed to a vendor `transformRow` (`options.originalData`
maps an item key to its original Department). -/
structure TransformOptions where
  originalData : Option (List (String × String))

/-- agne.js itemKey fallback: `transformedRow.UPC || transformedRow['Product Code']`. -/
def agneItemKey (upcOut : Option String) (productCode : String) : String :=
  if jsTruthy upcOut then orEmpty upcOut else productCode

/-- agne.js BOTTLE_DEPOSIT resolution (step 18 of `transformRow`): existing
deposit value looked up as-is, then re-parsed/re-stringified, then by UPC/Item
key with pass-through of the existing value; without an existing value, lookup
by UPC/Item key, else empty output plus a warning when a key was available.
Returns the `Fee ID` value and the deposit warnings pushed. -/
def agneDeposit (dm : List (String × String)) (existingDeposit : Option String)
    (itemKey : String) : String × List String :=
  if jsTruthy existingDeposit then
    if jsTruthy (getCell dm (orEmpty existingDeposit)) then
      (orEmpty (getCell dm (orEmpty existingDeposit)), [])
    else
      match parseNumeric existingDeposit with
      | some q =>
        if jsTruthy (getCell dm (qToString q)) then (orEmpty (getCell dm (qToString q)), [])
        else if jsTruthy (getCell dm itemKey) then (orEmpty (getCell dm itemKey), [])
        else (orEmpty existingDeposit, [])
      | none =>
        if jsTruthy (getCell dm itemKey) then (orEmpty (getCell dm itemKey), [])
        else (orEmpty existingDeposit, [])
  else
    if jsTruthy (getCell dm itemKey) then (orEmpty (getCell dm itemKey), [])
    else ("", if itemKey = "" then [] else ["No deposit mapping found for UPC/Item: " ++ itemKey])

/-- Values of one derived special-pricing group: deal/group price, per-unit
special price, method flag, and quantity. -/
structure SpecialFields where
  groupPrice : String
  price : String
  method : String
  qty : String
  deriving DecidableEq, Repr

/-- agne.js step 21 (`SALE_MULTIPLE` special logic): has-data gating over
SALE_RETAIL / SALE_COST / SALE_START_DATE / SALE_END_DATE / positive
SALE_MULTIPLE, with the multiplier `> 1` multi-unit branch. -/
def agneSaleFields (row : List (String × String)) : SpecialFields :=
  let saleMultiple := parseNumeric (getColumnValue row "SALE_MULTIPLE")
  let saleRetail := getColumnValue row "SALE_RETAIL"
  let regRetail := getColumnValue row "REG_RETAIL"
  let hasSaleData := jsTruthy saleRetail || jsTruthy (getColumnValue row "SALE_COST") ||
    jsTruthy (getColumnValue row "SALE_START_DATE") ||
    jsTruthy (getColumnValue row "SALE_END_DATE") ||
    (match saleMultiple with
     | some q => q.isPos
     | none => false)
  if hasSaleData then
    match saleMultiple with
    | some q =>
      if q.gtOne then
        ⟨orEmpty saleRetail, orEmpty regRetail, "2", orEmpty (getColumnValue row "SALE_MULTIPLE")⟩
      else ⟨"", orEmpty saleRetail, "0", ""⟩
    | none => ⟨"", orEmpty saleRetail, "0", ""⟩
  else ⟨"", "", "", ""⟩

/-- agne.js step 25 (`TPR_MULTIPLE` special logic), accepting both the TPR and
TRP column spellings. -/
def agneTprFields (row : List (String × String)) : SpecialFields :=
  let tprMultipleRaw := jsOr (getColumnValue row "TPR_MULTIPLE") (getColumnValue row "TRP_MULTIPLE")
  let tprMultiple := parseNumeric tprMultipleRaw
  let tprRetail := jsOr (getColumnValue row "TPR_RETAIL") (getColumnValue row "TRP_RETAIL")
  let regRetail := getColumnValue row "REG_RETAIL"
  let hasTprData := jsTruthy tprRetail || jsTruthy (getColumnValue row "TPR_COST") ||
    jsTruthy (getColumnValue row "TRP_COST") ||
    jsTruthy (getColumnValue row "TPR_START_DATE") ||
    jsTruthy (getColumnValue row "TRP_START_DATE") ||
    jsTruthy (getColumnValue row "TPR_END_DATE") ||
    jsTruthy (getColumnValue row "TRP_END_DATE") ||
    (match tprMultiple with
     | some q => q.isPos
     | none => false)
  if hasTprData then
    match tprMultiple with
    | some q =>
      if q.gtOne then ⟨orEmpty tprRetail, orEmpty regRetail, "2", orEmpty tprMultipleRaw⟩
      else ⟨"", orEmpty tprRetail, "0", ""⟩
    | none => ⟨"", orEmpty tprRetail, "0", ""⟩
  else ⟨"", "", "", ""⟩

/-- `optToList (some w) = [w]`: a pushed warning. -/
def optToList (o : Option String) : List String :=
  match o with
  | none => []
  | some w => [w]

/-- agne.js `transformRow(row, depositMapping, options)`.  The output columns
appear in JS insertion order with their final values; `UPC` is the only column
that can end up `undefined` (when `transformUPC` receives a falsy value). -/
def agneTransformRow (row : List (String × String)) (dm : List (String × String))
    (opts : TransformOptions) : List (String × Option String) × List String :=
  let g := getColumnValue row
  let productCode := orEmpty (g "Item")
  let upcOut := transformUPC (g "UPC")
  let origDept : Option String :=
    match opts.originalData with
    | none => none
    | some od => getCell od productCode
  let dept := preserveDepartmentID (g "Department") origDept
  let tax := transformTAX1 (g "TAX1")
  let dep := agneDeposit dm (g "BOTTLE_DEPOSIT") (agneItemKey upcOut productCode)
  let sale := agneSaleFields row
  let saleStart := agneNormalizeDate (g "SALE_START_DATE")
  let saleEnd := agneNormalizeDate (g "SALE_END_DATE")
  let tpr := agneTprFields row
  let tprStart := agneNormalizeDate (jsOr (g "TPR_START_DATE") (g "TRP_START_DATE"))
  let tprEnd := agneNormalizeDate (jsOr (g "TPR_END_DATE") (g "TRP_END_DATE"))
  ([("Vendor ID", some "3"),
    ("Product Code", some productCode),
    ("UPC", upcOut),
    ("Description", some (orEmpty (g "Description"))),
    ("Department ID", some dept.1),
    ("Price", some (orEmpty (g "REG_RETAIL"))),
    ("Pack", some (orEmpty (g "PACK"))),
    ("Cost", some (orEmpty (g "REGULARCOST"))),
    ("Tax ID", some tax.1),
    ("Foodstamp Eligible", some (orEmpty (g "FOOD_STAMP"))),
    ("WIC Eligible", some (orEmpty (g "WIC"))),
    ("Fee ID", some dep.1),
    ("Special Group Price", some sale.groupPrice),
    ("Special Price", some sale.price),
    ("Special Price Method", some sale.method),
    ("Special Quantity", some sale.qty),
    ("Special Cost", some (orEmpty (g "SALE_COST"))),
    ("Start Date", some saleStart.1),
    ("End Date", some saleEnd.1),
    ("Special Group Price #2", some tpr.groupPrice),
    ("Special Price #2", some tpr.price),
    ("Special Price Method #2", some tpr.method),
    ("Special Quantity #2", some tpr.qty),
    ("Special Cost #2", some (orEmpty (jsOr (g "TPR_COST") (g "TRP_COST")))),
    ("Start Date #2", some tprStart.1),
    ("End Date #2", some tprEnd.1),
    ("Size", some (orEmpty (g "ITEM_SIZE")))],
   optToList dept.2 ++ optToList tax.2 ++ dep.2 ++ optToList saleStart.2 ++
     optToList saleEnd.2 ++ optToList tprStart.2 ++ optToList tprEnd.2)

/-- agne.js `getOutputColumns()`. -/
def agneGetOutputColumns : List String :=
  ["Vendor ID", "Product Code", "UPC", "Description", "Department ID", "Price",
   "Pack", "Cost", "Tax ID", "Foodstamp Eligible", "WIC Eligible", "Fee ID",
   "Special Price Method", "Special Price", "Special Quantity", "Special Group Price",
   "Start Date", "End Date", "Special Cost",
   "Special Price Method #2", "Special Price #2", "Special Quantity #2",
   "Special Group Price #2", "Start Date #2", "End Date #2", "Special Cost #2",
   "Size"]

example : getCell (agneTransformRow [("BOTTLE_DEPOSIT", "0.77")] [] ⟨none⟩).1 "Fee ID" =
    some (some "0.77") := by decide
example : (agneTransformRow [("BOTTLE_DEPOSIT", "0.77")] [] ⟨none⟩).2 = [] := by decide
example : getCell (agneTransformRow [] [] ⟨none⟩).1 "UPC" = some none := by decide
example : getCell (agneTransformRow [("UPC", "54321")] [("54321", "DEP-001")] ⟨none⟩).1 "Fee ID" =
    some (some "DEP-001") := by decide
example : (agneTransformRow [("UPC", "99999")] [("54321", "DEP-001")] ⟨none⟩).2 =
    ["No deposit mapping found for UPC/Item: 99999"] := by decide
example :
    getCell (agneTransformRow
      [("SALE_MULTIPLE", "2"), ("SALE_RETAIL", "5.00"), ("REG_RETAIL", "8.00")] [] ⟨none⟩).1
      "Special Group Price" = some (some "5.00") := by decide
example :
    (agneTransformRow [("BOTTLE_DEPOSIT", "0.60")] [("0.6", "26")] ⟨none⟩).1.head? =
      some ("Vendor ID", some "3") := by decide
example : getCell (agneTransformRow [("BOTTLE_DEPOSIT", "0.60")] [("0.6", "26")] ⟨none⟩).1
    "Fee ID" = some (some "26") := by decide

/-- pine-state-spirits.js quote stripping in `formatDateDDMMYYYY`
(`replace(/^['"]|['"]$/g, '')`): one leading and one trailing quote character
are removed when present. -/
def stripOuterQuotes (s : String) : String :=
  let cs := s.data
  let cs1 := match cs with
    | c :: r => if c = '\'' ∨ c = '"' then r else cs
    | [] => []
  let cs2 := match cs1.getLast? with
    | some c => if c = '\'' ∨ c = '"' then cs1.dropLast else cs1
    | none => cs1
  String.mk cs2

/-- pine-state-spirits.js `toFourDigitYear(yy)`: `parseInt`, `null` on `NaN`,
year `< 50` gives `20YY`, otherwise `19YY` (re-padded to two digits). -/
def toFourDigitYear (yy : List Char) : Option String :=
  let ds := yy.takeWhile Char.isDigit
  if ds.isEmpty then none
  else
    some ((if digitsVal ds < 50 then "20" else "19") ++ padStartZeros (Nat.repr (digitsVal ds)) 2)

/-- pine-state-spirits.js `formatDateDDMMYYYY(dateStr)`: seven patterns tried
in source order, emitting `DD-MM-YYYY` with NO month/day range validation.
Note that pattern 4 (`D/M/YYYY`, day first) shadows the later pattern 6
(`M/D/YYYY`), while two-digit-year slash dates (pattern 7) parse month first. -/
def pineFormatDate (dateStr : Option String) : String × Option String :=
  match dateStr with
  | none => ("", none)
  | some ds =>
    let s := jsTrim ds
    if s = "" then ("", none)
    else
      let raw := jsTrim (stripOuterQuotes s)
      let failMsg := "Could not parse date: \"" ++ raw ++ "\""
      -- 1. YYYYMMDD (compact)
      if raw.data.length = 8 && raw.data.all Char.isDigit then
        ((String.mk ((raw.data.drop 6).take 2)) ++ "-" ++ (String.mk ((raw.data.drop 4).take 2)) ++
          "-" ++ (String.mk (raw.data.take 4)), none)
      else
        match splitSep '-' raw with
        -- 2. YYYY-MM-DD
        | [a, b, c] =>
          if digitGroup a 4 4 && digitGroup b 1 2 && digitGroup c 1 2 then
            (padStartZeros (String.mk c) 2 ++ "-" ++ padStartZeros (String.mk b) 2 ++ "-" ++
              String.mk a, none)
          -- 3. DD-MM-YYYY or D-M-YYYY
          else if digitGroup a 1 2 && digitGroup b 1 2 && digitGroup c 4 4 then
            (padStartZeros (String.mk a) 2 ++ "-" ++ padStartZeros (String.mk b) 2 ++ "-" ++
              String.mk c, none)
          -- 5. DD-MM-YY or D-M-YY (two-digit year, day first)
          else if digitGroup a 1 2 && digitGroup b 1 2 && digitGroup c 2 2 then
            match toFourDigitYear c with
            | none => ("", some failMsg)
            | some y =>
              (padStartZeros (String.mk a) 2 ++ "-" ++ padStartZeros (String.mk b) 2 ++ "-" ++ y,
                none)
          else ("", some failMsg)
        | _ =>
          match splitSep '/' raw with
          -- 4. DD/MM/YYYY or D/M/YYYY (day first; shadows the MM/DD/YYYY pattern 6)
          | [a, b, c] =>
            if digitGroup a 1 2 && digitGroup b 1 2 && digitGroup c 4 4 then
              (padStartZeros (String.mk a) 2 ++ "-" ++ padStartZeros (String.mk b) 2 ++ "-" ++
                String.mk c, none)
            -- 7. MM/DD/YY or M/D/YY (two-digit year, month first)
            else if digitGroup a 1 2 && digitGroup b 1 2 && digitGroup c 2 2 then
              match toFourDigitYear c with
              | none => ("", some failMsg)
              | some y =>
                (padStartZeros (String.mk b) 2 ++ "-" ++ padStartZeros (String.mk a) 2 ++ "-" ++ y,
                  none)
            else ("", some failMsg)
          | _ => ("", some failMsg)

/-- pine-state-spirits.js `padUPC(upc)`: empty gives empty; scientific-notation
strings are expanded through `parseFloat`; non-digits are stripped; the result
is left-padded with zeros to 13 digits unless already at least 13 long. -/
def padUPC (upc : String) : String :=
  if upc = "" then ""
  else
    let t := jsTrim upc
    let t2 := if t.data.any (fun c => c = 'e' ∨ c = 'E') then
        match jsParseFloat t with
        | some q => qToString q
        | none => t
      else t
    let ds := String.mk (t2.data.filter Char.isDigit)
    if ds = "" then ""
    else if 13 ≤ ds.length then ds
    else padStartZeros ds 13

/-- pine-state-spirits.js `formatPrice(value)`: falsy gives empty, unparseable
gives empty, otherwise `toFixed(2)`. -/
def formatPrice (value : Option String) : String :=
  if ¬ jsTruthy value then ""
  else
    match parseNumeric value with
    | none => ""
    | some q => toFixed2 q

/-- pine-state-spirits.js `transformRow(row, depositMapping, options)`:
the deposit mapping and options are unused by this vendor.  Every output cell
is a string. -/
def pineTransformRow (row : List (String × String)) (_dm : List (String × String))
    (_opts : TransformOptions) : List (String × String) × List String :=
  let g := getColumnValue row
  let rawItem := orEmpty (jsOrChain [g "Item #", g "Item", g "ItemNumber", g "Item No", g "ItemNo"])
  let itemNo :=
    if jsTrim rawItem = "" then ""
    else
      let t := jsTrim rawItem
      if ¬ t.data.isEmpty ∧ t.data.all Char.isDigit then padStartZeros t 6 else t
  let upcRaw := orEmpty (jsOrChain [g "UPC", g "UPC Code", g "UPC#", g "Code", g "Barcode",
    g "Bar Code", g "EAN", g "GTIN", g "Upc"])
  let upcOut := padUPC upcRaw
  let upcWarn : List String :=
    if jsTrim upcRaw = "" then []
    else if upcOut = "" then
      ["Could not normalize UPC for item: " ++ itemNo ++ " (original: \"" ++ upcRaw ++ "\")"]
    else []
  let startR := pineFormatDate (jsOrChain [g "Effective Start", g "EffectiveStart", g "Start Date"])
  let endR := pineFormatDate (jsOrChain [g "Effective End", g "EffectiveEnd", g "End Date"])
  let retailRaw := jsOr (g "Retail") (g "Retail Price")
  let retail := formatPrice retailRaw
  let retailWarn : List String :=
    if retail = "" ∧ jsTruthy retailRaw then ["Invalid retail price for item: " ++ itemNo] else []
  let saleRaw := jsOrChain [g "Sale Price", g "SalePrice", g "Special Price"]
  let sale := formatPrice saleRaw
  let saleWarn : List String :=
    if sale = "" ∧ jsTruthy saleRaw then ["Invalid sale price for item: " ++ itemNo] else []
  let costRaw := jsOrChain [g "Agency Cost", g "AgencyCost", g "Cost"]
  let cost := formatPrice costRaw
  let costWarn : List String :=
    if cost = "" ∧ jsTruthy costRaw then ["Invalid agency cost for item: " ++ itemNo] else []
  let saleCostRaw := jsOrChain [g "Agency Sale Cost", g "AgencySaleCost", g "Sale Cost"]
  let saleCost := formatPrice saleCostRaw
  let saleCostWarn : List String :=
    if saleCost = "" ∧ jsTruthy saleCostRaw then ["Invalid agency sale cost for item: " ++ itemNo]
    else []
  ([("Item #", itemNo),
    ("Description", orEmpty (jsOr (g "Description") (g "Desc"))),
    ("Size", orEmpty (g "Size")),
    ("Unit", orEmpty (jsOr (g "Unit") (g "UOM"))),
    ("UPC", upcOut),
    ("Effective Start", startR.1),
    ("Effective End", endR.1),
    ("Retail", retail),
    ("Special Pricing Method", "0"),
    ("Sale Price", sale),
    ("Agency Cost", cost),
    ("Agency Sale Cost", saleCost)],
   upcWarn ++ optToList startR.2 ++ optToList endR.2 ++ retailWarn ++ saleWarn ++ costWarn ++
     saleCostWarn)

/-- pine-state-spirits.js `getOutputColumns()`. -/
def pineGetOutputColumns : List String :=
  ["Item #", "Description", "Size", "Unit", "UPC", "Effective Start", "Effective End",
   "Retail", "Special Pricing Method", "Sale Price", "Agency Cost", "Agency Sale Cost"]

/-- The vendor transformers of the system (pine-state-spirits.js exists in the
repository but is not registered in vendorRegistry.js). -/
inductive VendorTransformer
  | AGNE
  deriving DecidableEq, Repr

/-- vendorRegistry.js registry contents: only AGNE is registered. -/
def vendorRegistry : List (String × VendorTransformer) :=
  [("AGNE", VendorTransformer.AGNE)]

/-- vendorRegistry.js `getDefaultVendor()`. -/
def getDefaultVendor : String :=
  "AGNE"

/-- vendorRegistry.js `getVendorTransformer(vendorId)`: the registered module,
or a thrown error naming the requested id and the joined known ids. -/
def getVendorTransformer (vendorId : String) : Except String VendorTransformer :=
  match getCell vendorRegistry vendorId with
  | some t => Except.ok t
  | none =>
    Except.error ("Vendor \"" ++ vendorId ++ "\" not found. Available vendors: " ++
      String.intercalate ", " (vendorRegistry.map Prod.fst))

/-- Options of the transformer.js dispatch wrapper. -/
structure DispatchOptions where
  vendorId : Option String
  originalData : Option (List (String × String))

/-- transformer.js `transformRow`: resolve `options.vendorId || getDefaultVendor()`
through the registry and delegate; a registry failure propagates. -/
def transformRowDispatch (row : List (String × String)) (dm : List (String × String))
    (opts : DispatchOptions) : Except String (List (String × Option String) × List String) :=
  let vid := if jsTruthy opts.vendorId then orEmpty opts.vendorId else getDefaultVendor
  match getVendorTransformer vid with
  | Except.error e => Except.error e
  | Except.ok VendorTransformer.AGNE => Except.ok (agneTransformRow row dm ⟨opts.originalData⟩)

example : pineFormatDate (some "20251201") = ("01-12-2025", none) := by decide
example : pineFormatDate (some "2025-12-1") = ("01-12-2025", none) := by decide
example : pineFormatDate (some "1-12-2025") = ("01-12-2025", none) := by decide
example : pineFormatDate (some "12/1/2025") = ("12-01-2025", none) := by decide
example : pineFormatDate (some "1/12/25") = ("12-01-2025", none) := by decide
example : pineFormatDate (some "12/1/25") = ("01-12-2025", none) := by decide
example : pineFormatDate (some "12/31/25") = ("31-12-2025", none) := by decide
example : pineFormatDate (some "5-13-2025") = ("05-13-2025", none) := by decide
example : padUPC "852735003210" = "0852735003210" := by decide
example : padUPC "5029704217465" = "5029704217465" := by decide
example : getCell (pineTransformRow [("Item #", "165")] [] ⟨none⟩).1 "Item #" =
    some "000165" := by decide
example : getCell (pineTransformRow [("Retail", "45.1")] [] ⟨none⟩).1 "Retail" =
    some "45.10" := by decide
example : getVendorTransformer "AGNE" = Except.ok VendorTransformer.AGNE := rfl
example : getVendorTransformer "PINE_STATE_SPIRITS" =
    Except.error "Vendor \"PINE_STATE_SPIRITS\" not found. Available vendors: AGNE" := rfl

/-- A lookup with a key drawn from the association list's key list succeeds. -/
theorem getCell_exists_of_mem_keys {α : Type} (l : List (String × α)) (c : String)
    (h : c ∈ l.map Prod.fst) : ∃ v, getCell l c = some v := by
  induction l with
  | nil => simp at h
  | cons p t ih =>
    by_cases hc : p.1 = c
    · exact ⟨p.2, by simp [getCell, List.find?, hc]⟩
    · have ht : c ∈ t.map Prod.fst := by
        rcases List.mem_cons.1 h with h1 | h1
        · exact absurd h1.symm hc
        · exact h1
      obtain ⟨v, hv⟩ := ih ht
      exact ⟨v, by simpa [getCell, List.find?, hc] using hv⟩

/-- A successful lookup returns a binding of the association list. -/
theorem getCell_mem {α : Type} (l : List (String × α)) (c : String) (v : α)
    (h : getCell l c = some v) : (c, v) ∈ l := by
  induction l with
  | nil => simp [getCell, List.find?] at h
  | cons p t ih =>
    by_cases hc : p.1 = c
    · have hv : p.2 = v := by simpa [getCell, List.find?, hc] using h
      exact List.mem_cons.2 (Or.inl (by rw [← hc, ← hv]))
    · exact List.mem_cons.2 (Or.inr (ih (by simpa [getCell, List.find?, hc] using h)))

/-- `transformUPC` maps a present cell to a present cell. -/
theorem transformUPC_some (u : String) : ∃ s, transformUPC (some u) = some s := by
  unfold transformUPC
  split
  · exact ⟨u, rfl⟩
  · cases h : (jsTrim (orEmpty (some u))).data with
    | nil => exact ⟨jsTrim (orEmpty (some u)), rfl⟩
    | cons c rest =>
      by_cases hc : c = '0'
      · exact ⟨String.mk rest, by simp [hc]⟩
      · exact ⟨jsTrim (orEmpty (some u)), by simp [hc]⟩

/-- A truthy value has a nonempty string payload. -/
theorem jsTruthy_iff (v : Option String) : jsTruthy v = true ↔ orEmpty v ≠ "" := by
  simp [jsTruthy, orEmpty]

/-- The embedded JS comparison `q > 0` agrees with the rational value. -/
theorem Dec10.isPos_iff (q : Dec10) : q.isPos = true ↔ 0 < q.val := by
  have hd : (0 : ℚ) < 10 ^ q.exp := by positivity
  rw [Dec10.isPos, Dec10.val, decide_eq_true_iff, lt_div_iff₀ hd]
  simp

/-- The embedded JS comparison `q > 1` agrees with the rational value. -/
theorem Dec10.gtOne_iff (q : Dec10) : q.gtOne = true ↔ 1 < q.val := by
  have hd : (0 : ℚ) < 10 ^ q.exp := by positivity
  rw [Dec10.gtOne, Dec10.val, decide_eq_true_iff, lt_div_iff₀ hd, one_mul]
  constructor
  · intro h
    exact_mod_cast (by exact_mod_cast h : ((10 : ℤ) ^ q.exp : ℚ) < (q.num : ℚ))
  · intro h
    exact_mod_cast h

/-- A pushed optional warning is the only member of its `optToList`. -/
theorem optToList_mem (o : Option String) (w : String) (h : w ∈ optToList o) : o = some w := by
  cases o with
  | none => simp [optToList] at h
  | some a => simpa [optToList] using (by simpa [optToList] using h : w = a).symm

/-- The itemKey used by AGNE deposit resolution for a given input row:
`transformedRow.UPC || transformedRow['Product Code']`. -/
def agneRowItemKey (row : List (String × String)) : String :=
  agneItemKey (transformUPC (getColumnValue row "UPC")) (orEmpty (getColumnValue row "Item"))

/-- With no sale-group data the SALE special fields are all empty. -/
theorem agneSaleFields_empty (row : List (String × String))
    (hs1 : jsTruthy (getColumnValue row "SALE_RETAIL") = false)
    (hs2 : jsTruthy (getColumnValue row "SALE_COST") = false)
    (hs3 : jsTruthy (getColumnValue row "SALE_START_DATE") = false)
    (hs4 : jsTruthy (getColumnValue row "SALE_END_DATE") = false)
    (hs5 : ∀ q, parseNumeric (getColumnValue row "SALE_MULTIPLE") = some q → q.val ≤ 0) :
    agneSaleFields row = ⟨"", "", "", ""⟩ := by
  simp only [agneSaleFields]
  cases hpn : parseNumeric (getColumnValue row "SALE_MULTIPLE") with
  | none => simp [hs1, hs2, hs3, hs4]
  | some q =>
    have hq : q.isPos = false := by
      rw [← Bool.not_eq_true]
      intro h
      exact absurd ((Dec10.isPos_iff q).1 h) (not_lt.2 (hs5 q hpn))
    simp [hs1, hs2, hs3, hs4, hq]

/-- With no TPR-group data (in either the TPR or TRP spelling) the TPR special
fields are all empty. -/
theorem agneTprFields_empty (row : List (String × String))
    (ht1 : jsTruthy (jsOr (getColumnValue row "TPR_RETAIL") (getColumnValue row "TRP_RETAIL")) = false)
    (ht2 : jsTruthy (getColumnValue row "TPR_COST") = false)
    (ht3 : jsTruthy (getColumnValue row "TRP_COST") = false)
    (ht4 : jsTruthy (getColumnValue row "TPR_START_DATE") = false)
    (ht5 : jsTruthy (getColumnValue row "TRP_START_DATE") = false)
    (ht6 : jsTruthy (getColumnValue row "TPR_END_DATE") = false)
    (ht7 : jsTruthy (getColumnValue row "TRP_END_DATE") = false)
    (ht8 : ∀ q, parseNumeric (jsOr (getColumnValue row "TPR_MULTIPLE")
      (getColumnValue row "TRP_MULTIPLE")) = some q → q.val ≤ 0) :
    agneTprFields row = ⟨"", "", "", ""⟩ := by
  simp only [agneTprFields]
  cases hpn : parseNumeric (jsOr (getColumnValue row "TPR_MULTIPLE")
      (getColumnValue row "TRP_MULTIPLE")) with
  | none => simp [ht1, ht2, ht3, ht4, ht5, ht6, ht7]
  | some q =>
    have hq : q.isPos = false := by
      rw [← Bool.not_eq_true]
      intro h
      exact absurd ((Dec10.isPos_iff q).1 h) (not_lt.2 (ht8 q hpn))
    simp [ht1, ht2, ht3, ht4, ht5, ht6, ht7, hq]

/-- With a multiplier parsing above one, the SALE special fields follow the
multi-unit branch. -/
theorem agneSaleFields_multi (row : List (String × String)) (q : Dec10)
    (hq : parseNumeric (getColumnValue row "SALE_MULTIPLE") = some q)
    (h1 : 1 < q.val) :
    agneSaleFields row =
      ⟨orEmpty (getColumnValue row "SALE_RETAIL"), orEmpty (getColumnValue row "REG_RETAIL"),
        "2", orEmpty (getColumnValue row "SALE_MULTIPLE")⟩ := by
  have hgt : q.gtOne = true := (Dec10.gtOne_iff q).2 h1
  have hpos : q.isPos = true :=
    (Dec10.isPos_iff q).2 (lt_trans zero_lt_one h1)
  simp only [agneSaleFields]
  rw [hq]
  simp [hgt, hpos]

/-- C5: for every AGNE input row and for each special-pricing group
independently, if all raw fields of that group are empty or absent (price,
cost, start date, end date all empty, and the multiplier absent or not > 0)
then `transformRow` emits the empty string — never "0" — for that group's
method flag, per-unit special price, quantity, and deal/group price fields;
the SALE half holds whatever the TPR columns contain and vice versa. -/
theorem agne_c5_hasdata_gating (row dm : List (String × String)) (opts : TransformOptions) :
    (jsTruthy (getColumnValue row "SALE_RETAIL") = false →
     jsTruthy (getColumnValue row "SALE_COST") = false →
     jsTruthy (getColumnValue row "SALE_START_DATE") = false →
     jsTruthy (getColumnValue row "SALE_END_DATE") = false →
     (∀ q, parseNumeric (getColumnValue row "SALE_MULTIPLE") = some q → q.val ≤ 0) →
     getCell (agneTransformRow row dm opts).1 "Special Price Method" = some (some "") ∧
     getCell (agneTransformRow row dm opts).1 "Special Price" = some (some "") ∧
     getCell (agneTransformRow row dm opts).1 "Special Quantity" = some (some "") ∧
     getCell (agneTransformRow row dm opts).1 "Special Group Price" = some (some "")) ∧
    (jsTruthy (jsOr (getColumnValue row "TPR_RETAIL") (getColumnValue row "TRP_RETAIL")) = false →
     jsTruthy (getColumnValue row "TPR_COST") = false →
     jsTruthy (getColumnValue row "TRP_COST") = false →
     jsTruthy (getColumnValue row "TPR_START_DATE") = false →
     jsTruthy (getColumnValue row "TRP_START_DATE") = false →
     jsTruthy (getColumnValue row "TPR_END_DATE") = false →
     jsTruthy (getColumnValue row "TRP_END_DATE") = false →
     (∀ q, parseNumeric (jsOr (getColumnValue row "TPR_MULTIPLE")
       (getColumnValue row "TRP_MULTIPLE")) = some q → q.val ≤ 0) →
     getCell (agneTransformRow row dm opts).1 "Special Price Method #2" = some (some "") ∧
     getCell (agneTransformRow row dm opts).1 "Special Price #2" = some (some "") ∧
     getCell (agneTransformRow row dm opts).1 "Special Quantity #2" = some (some "") ∧
     getCell (agneTransformRow row dm opts).1 "Special Group Price #2" = some (some "")) := by
  constructor
  · intro hs1 hs2 hs3 hs4 hs5
    have hs := agneSaleFields_empty row hs1 hs2 hs3 hs4 hs5
    refine ⟨?_, ?_, ?_, ?_⟩
    · rw [show getCell (agneTransformRow row dm opts).1 "Special Price Method" =
        some (some (agneSaleFields row).method) from rfl, hs]
    · rw [show getCell (agneTransformRow row dm opts).1 "Special Price" =
        some (some (agneSaleFields row).price) from rfl, hs]
    · rw [show getCell (agneTransformRow row dm opts).1 "Special Quantity" =
        some (some (agneSaleFields row).qty) from rfl, hs]
    · rw [show getCell (agneTransformRow row dm opts).1 "Special Group Price" =
        some (some (agneSaleFields row).groupPrice) from rfl, hs]
  · intro ht1 ht2 ht3 ht4 ht5 ht6 ht7 ht8
    have ht := agneTprFields_empty row ht1 ht2 ht3 ht4 ht5 ht6 ht7 ht8
    refine ⟨?_, ?_, ?_, ?_⟩
    · rw [show getCell (agneTransformRow row dm opts).1 "Special Price Method #2" =
        some (some (agneTprFields row).method) from rfl, ht]
    · rw [show getCell (agneTransformRow row dm opts).1 "Special Price #2" =
        some (some (agneTprFields row).price) from rfl, ht]
    · rw [show getCell (agneTransformRow row dm opts).1 "Special Quantity #2" =
        some (some (agneTprFields row).qty) from rfl, ht]
    · rw [show getCell (agneTransformRow row dm opts).1 "Special Group Price #2" =
        some (some (agneTprFields row).groupPrice) from rfl, ht]

/-- C5 witness: on a row whose SALE group is empty but whose TPR group has
data, the four SALE fields are empty; on a row whose TPR group is empty but
whose SALE group has data, the four TPR fields are empty — each group is
gated independently of the other. -/
theorem agne_c5_hasdata_gating_witness :
    (getCell (agneTransformRow [("TPR_RETAIL", "1.99")] [] ⟨none⟩).1 "Special Price Method" =
      some (some "") ∧
     getCell (agneTransformRow [("TPR_RETAIL", "1.99")] [] ⟨none⟩).1 "Special Price" =
      some (some "") ∧
     getCell (agneTransformRow [("TPR_RETAIL", "1.99")] [] ⟨none⟩).1 "Special Quantity" =
      some (some "") ∧
     getCell (agneTransformRow [("TPR_RETAIL", "1.99")] [] ⟨none⟩).1 "Special Group Price" =
      some (some "")) ∧
    (getCell (agneTransformRow [("SALE_RETAIL", "1.99")] [] ⟨none⟩).1 "Special Price Method #2" =
      some (some "") ∧
     getCell (agneTransformRow [("SALE_RETAIL", "1.99")] [] ⟨none⟩).1 "Special Price #2" =
      some (some "") ∧
     getCell (agneTransformRow [("SALE_RETAIL", "1.99")] [] ⟨none⟩).1 "Special Quantity #2" =
      some (some "") ∧
     getCell (agneTransformRow [("SALE_RETAIL", "1.99")] [] ⟨none⟩).1 "Special Group Price #2" =
      some (some "")) :=
  ⟨(agne_c5_hasdata_gating [("TPR_RETAIL", "1.99")] [] ⟨none⟩).1 (by decide) (by decide)
    (by decide) (by decide) (fun _ h => nomatch h),
   (agne_c5_hasdata_gating [("SALE_RETAIL", "1.99")] [] ⟨none⟩).2 (by decide) (by decide)
    (by decide) (by decide) (by decide) (by decide) (by decide) (fun _ h => nomatch h)⟩

/-- C6: for every AGNE input row whose SALE group multiplier field parses to a
number > 1, `transformRow` sets the deal/group price to the original per-unit
special price, overwrites the per-unit special price with the regular retail
price, sets the method flag to the multi-unit sentinel "2", and sets the
quantity field to the original multiplier text. -/
theorem agne_c6_multiplier_branch (row dm : List (String × String)) (opts : TransformOptions)
    (q : Dec10) (hq : parseNumeric (getColumnValue row "SALE_MULTIPLE") = some q)
    (h1 : 1 < q.val) :
    getCell (agneTransformRow row dm opts).1 "Special Group Price" =
      some (some (orEmpty (getColumnValue row "SALE_RETAIL"))) ∧
    getCell (agneTransformRow row dm opts).1 "Special Price" =
      some (some (orEmpty (getColumnValue row "REG_RETAIL"))) ∧
    getCell (agneTransformRow row dm opts).1 "Special Price Method" = some (some "2") ∧
    getCell (agneTransformRow row dm opts).1 "Special Quantity" =
      some (some (orEmpty (getColumnValue row "SALE_MULTIPLE"))) := by
  have hs := agneSaleFields_multi row q hq h1
  refine ⟨?_, ?_, ?_, ?_⟩
  · rw [show getCell (agneTransformRow row dm opts).1 "Special Group Price" =
      some (some (agneSaleFields row).groupPrice) from rfl, hs]
  · rw [show getCell (agneTransformRow row dm opts).1 "Special Price" =
      some (some (agneSaleFields row).price) from rfl, hs]
  · rw [show getCell (agneTransformRow row dm opts).1 "Special Price Method" =
      some (some (agneSaleFields row).method) from rfl, hs]
  · rw [show getCell (agneTransformRow row dm opts).1 "Special Quantity" =
      some (some (agneSaleFields row).qty) from rfl, hs]

/-- C6 witness: multiplier 2, special price 5.00, regular price 8.00 yield
deal price 5.00, special price 8.00, method flag "2" and quantity "2". -/
theorem agne_c6_multiplier_branch_witness :
    getCell (agneTransformRow [("SALE_MULTIPLE", "2"), ("SALE_RETAIL", "5.00"),
      ("REG_RETAIL", "8.00")] [] ⟨none⟩).1 "Special Group Price" = some (some "5.00") ∧
    getCell (agneTransformRow [("SALE_MULTIPLE", "2"), ("SALE_RETAIL", "5.00"),
      ("REG_RETAIL", "8.00")] [] ⟨none⟩).1 "Special Price" = some (some "8.00") ∧
    getCell (agneTransformRow [("SALE_MULTIPLE", "2"), ("SALE_RETAIL", "5.00"),
      ("REG_RETAIL", "8.00")] [] ⟨none⟩).1 "Special Price Method" = some (some "2") ∧
    getCell (agneTransformRow [("SALE_MULTIPLE", "2"), ("SALE_RETAIL", "5.00"),
      ("REG_RETAIL", "8.00")] [] ⟨none⟩).1 "Special Quantity" = some (some "2") := by
  have h := agne_c6_multiplier_branch [("SALE_MULTIPLE", "2"), ("SALE_RETAIL", "5.00"),
    ("REG_RETAIL", "8.00")] [] ⟨none⟩ ⟨2, 0⟩ (by decide)
    (by norm_num [Dec10.val])
  refine ⟨?_, ?_, ?_, ?_⟩
  · rw [h.1]; decide
  · rw [h.2.1]; decide
  · rw [h.2.2.1]
  · rw [h.2.2.2]; decide

/-- C1 counterexample: a row whose pre-existing BOTTLE_DEPOSIT value "0.77"
matches nothing in an empty deposit mapping still emits "0.77" (not the empty
string) as the Fee ID, with no warning at all — refuting the claim that every
fully failed deposit resolution yields an empty field plus a warning. -/
theorem agne_c1_deposit_counterexample :
    getCell (agneTransformRow [("BOTTLE_DEPOSIT", "0.77")] [] ⟨none⟩).1 "Fee ID" =
      some (some "0.77") ∧
    (agneTransformRow [("BOTTLE_DEPOSIT", "0.77")] [] ⟨none⟩).2 = [] ∧
    "0.77" ≠ "" := by decide

/-- C1 (amended): when the row carries NO truthy pre-existing deposit value and
the UPC/Item key finds no mapping entry, the Fee ID is the empty string, with
a warning naming the UPC/Item key exactly when such a key exists; rows with a
truthy unmatched pre-existing deposit value instead pass it through (C10). -/
theorem agne_c1_deposit_amended (row dm : List (String × String)) (opts : TransformOptions)
    (h1 : jsTruthy (getColumnValue row "BOTTLE_DEPOSIT") = false)
    (h2 : jsTruthy (getCell dm (agneRowItemKey row)) = false) :
    getCell (agneTransformRow row dm opts).1 "Fee ID" = some (some "") ∧
    (agneRowItemKey row ≠ "" →
      ("No deposit mapping found for UPC/Item: " ++ agneRowItemKey row) ∈
        (agneTransformRow row dm opts).2) ∧
    (agneRowItemKey row = "" →
      agneDeposit dm (getColumnValue row "BOTTLE_DEPOSIT") (agneRowItemKey row) = ("", [])) := by
  have hdep : agneDeposit dm (getColumnValue row "BOTTLE_DEPOSIT") (agneRowItemKey row) =
      ("", if agneRowItemKey row = "" then [] else
        ["No deposit mapping found for UPC/Item: " ++ agneRowItemKey row]) := by
    unfold agneDeposit
    rw [h1, h2]
    simp
  refine ⟨?_, ?_, ?_⟩
  · rw [show getCell (agneTransformRow row dm opts).1 "Fee ID" =
      some (some (agneDeposit dm (getColumnValue row "BOTTLE_DEPOSIT")
        (agneRowItemKey row)).1) from rfl, hdep]
  · intro hne
    have hw : (agneTransformRow row dm opts).2 =
        optToList (preserveDepartmentID (getColumnValue row "Department")
          (match opts.originalData with
           | none => none
           | some od => getCell od (orEmpty (getColumnValue row "Item")))).2 ++
        optToList (transformTAX1 (getColumnValue row "TAX1")).2 ++
        (agneDeposit dm (getColumnValue row "BOTTLE_DEPOSIT") (agneRowItemKey row)).2 ++
        optToList (agneNormalizeDate (getColumnValue row "SALE_START_DATE")).2 ++
        optToList (agneNormalizeDate (getColumnValue row "SALE_END_DATE")).2 ++
        optToList (agneNormalizeDate (jsOr (getColumnValue row "TPR_START_DATE")
          (getColumnValue row "TRP_START_DATE"))).2 ++
        optToList (agneNormalizeDate (jsOr (getColumnValue row "TPR_END_DATE")
          (getColumnValue row "TRP_END_DATE"))).2 := rfl
    rw [hw, hdep, if_neg hne]
    simp
  · intro heq
    rw [hdep, if_pos heq]

/-- C1 witness: the spec's own example — UPC "99999" against a mapping holding
only "54321" — produces an empty Fee ID and exactly the warning naming
"99999". -/
theorem agne_c1_deposit_amended_witness :
    getCell (agneTransformRow [("UPC", "99999")] [("54321", "DEP-001")] ⟨none⟩).1 "Fee ID" =
      some (some "") ∧
    ("No deposit mapping found for UPC/Item: " ++
        agneRowItemKey [("UPC", "99999")]) ∈
      (agneTransformRow [("UPC", "99999")] [("54321", "DEP-001")] ⟨none⟩).2 := by
  have h := agne_c1_deposit_amended [("UPC", "99999")] [("54321", "DEP-001")] ⟨none⟩
    (by decide) (by decide)
  exact ⟨h.1, h.2.1 (by decide)⟩

/-- C10: for every AGNE row carrying a truthy pre-existing deposit value that
matches no deposit-mapping key directly, nor after re-parsing and
re-stringifying as a number, nor via the UPC/Item key, `transformRow` emits
the raw pre-existing deposit value itself (necessarily nonempty) as the Fee ID
and the deposit resolution adds no warning. -/
theorem agne_c10_deposit_passthrough (row dm : List (String × String)) (opts : TransformOptions)
    (h1 : jsTruthy (getColumnValue row "BOTTLE_DEPOSIT") = true)
    (h2 : jsTruthy (getCell dm (orEmpty (getColumnValue row "BOTTLE_DEPOSIT"))) = false)
    (h3 : ∀ q, parseNumeric (getColumnValue row "BOTTLE_DEPOSIT") = some q →
      jsTruthy (getCell dm (qToString q)) = false)
    (h4 : jsTruthy (getCell dm (agneRowItemKey row)) = false) :
    getCell (agneTransformRow row dm opts).1 "Fee ID" =
      some (some (orEmpty (getColumnValue row "BOTTLE_DEPOSIT"))) ∧
    orEmpty (getColumnValue row "BOTTLE_DEPOSIT") ≠ "" ∧
    agneDeposit dm (getColumnValue row "BOTTLE_DEPOSIT") (agneRowItemKey row) =
      (orEmpty (getColumnValue row "BOTTLE_DEPOSIT"), []) := by
  have hdep : agneDeposit dm (getColumnValue row "BOTTLE_DEPOSIT") (agneRowItemKey row) =
      (orEmpty (getColumnValue row "BOTTLE_DEPOSIT"), []) := by
    unfold agneDeposit
    rw [h1, h2]
    cases hpn : parseNumeric (getColumnValue row "BOTTLE_DEPOSIT") with
    | none => simp [h4]
    | some q => simp [h3 q hpn, h4]
  refine ⟨?_, (jsTruthy_iff _).1 h1, hdep⟩
  rw [show getCell (agneTransformRow row dm opts).1 "Fee ID" =
    some (some (agneDeposit dm (getColumnValue row "BOTTLE_DEPOSIT")
      (agneRowItemKey row)).1) from rfl, hdep]

/-- C10 witness: deposit value "0.99" with UPC "11111" against a mapping
holding only "54321" passes "0.99" through with no warnings. -/
theorem agne_c10_deposit_passthrough_witness :
    getCell (agneTransformRow [("BOTTLE_DEPOSIT", "0.99"), ("UPC", "11111")]
      [("54321", "DEP-001")] ⟨none⟩).1 "Fee ID" = some (some "0.99") ∧
    agneDeposit [("54321", "DEP-001")] (some "0.99") (agneRowItemKey
      [("BOTTLE_DEPOSIT", "0.99"), ("UPC", "11111")]) = ("0.99", []) := by
  have h := agne_c10_deposit_passthrough [("BOTTLE_DEPOSIT", "0.99"), ("UPC", "11111")]
    [("54321", "DEP-001")] ⟨none⟩ (by decide) (by decide)
    (by intro q hq
        have he : parseNumeric (some "0.99") = some ⟨99, 2⟩ := by decide
        rw [show getColumnValue [("BOTTLE_DEPOSIT", "0.99"), ("UPC", "11111")]
          "BOTTLE_DEPOSIT" = some "0.99" from rfl, he] at hq
        injection hq with h2
        rw [← h2]
        decide)
    (by decide)
  exact ⟨h.1, h.2.2⟩

/-- Number of leading `'0'` characters. -/
def leadingZeros (cs : List Char) : ℕ :=
  (cs.takeWhile (fun c => c = '0')).length

/-- C7 counterexample: " 1" does not start with '0', yet `transformUPC` returns
"1" rather than the input unchanged — the function trims, refuting "for every
string not starting with '0', the output equals the input". -/
theorem upc_c7_counterexample :
    transformUPC (some " 1") = some "1" ∧
    (" 1").data.head? ≠ some '0' ∧
    " 1" ≠ "1" := by decide

/-- C7 (amended): `transformUPC` returns falsy input unchanged; on a truthy
input it first trims, then: if the trimmed string starts with '0' the result
drops exactly that one character (so it is one character shorter than the
trimmed input and has one fewer leading zero than the trimmed input, possibly
still starting with '0'); otherwise the result is the trimmed input. -/
theorem upc_c7_amended (s : String) :
    transformUPC none = none ∧
    transformUPC (some "") = some "" ∧
    (s ≠ "" → (jsTrim s).data.head? = some '0' →
      transformUPC (some s) = some (String.mk (jsTrim s).data.tail) ∧
      (jsTrim s).data.length = (jsTrim s).data.tail.length + 1 ∧
      leadingZeros (jsTrim s).data = leadingZeros (jsTrim s).data.tail + 1) ∧
    (s ≠ "" → (jsTrim s).data.head? ≠ some '0' →
      transformUPC (some s) = some (jsTrim s)) := by
  refine ⟨by decide, by decide, ?_, ?_⟩
  · intro hs h0
    have htr : jsTruthy (some s) = true := by simpa [jsTruthy] using hs
    cases hd : (jsTrim s).data with
    | nil => rw [hd] at h0; exact absurd h0 (by simp)
    | cons c rest =>
      have hc : c = '0' := by
        rw [hd] at h0
        simpa using h0
      subst hc
      have he : transformUPC (some s) = some (String.mk rest) := by
        unfold transformUPC
        rw [if_neg (by simp [htr]), show orEmpty (some s) = s from rfl, hd]
        simp
      refine ⟨he, by simp, ?_⟩
      simp [leadingZeros, List.takeWhile]
  · intro hs h0
    have htr : jsTruthy (some s) = true := by simpa [jsTruthy] using hs
    cases hd : (jsTrim s).data with
    | nil =>
      unfold transformUPC
      rw [if_neg (by simp [htr]), show orEmpty (some s) = s from rfl, hd]
    | cons c rest =>
      have hc : ¬ c = '0' := by
        rw [hd] at h0
        simpa using h0
      unfold transformUPC
      rw [if_neg (by simp [htr]), show orEmpty (some s) = s from rfl, hd]
      simp [hc]

/-- C7 witness: "0123 " trims to "0123", loses exactly the one leading zero
giving "123"; "  12" trims to "12" and is returned as such. -/
theorem upc_c7_amended_witness :
    transformUPC (some "0123 ") = some (String.mk (jsTrim "0123 ").data.tail) ∧
    leadingZeros (jsTrim "0123 ").data = leadingZeros (jsTrim "0123 ").data.tail + 1 ∧
    transformUPC (some "  12") = some (jsTrim "  12") := by
  have h1 := (upc_c7_amended "0123 ").2.2.1 (by decide) (by decide)
  have h2 := (upc_c7_amended "  12").2.2.2 (by decide) (by decide)
  exact ⟨h1.1, h1.2.2, h2⟩

/-- C2 counterexample: the Pine State date normalizer parses "12/1/2025" with
its day-first slash pattern, producing "12-01-2025" (day 12, month 1) instead
of the claimed day=1, month=12 rendering "01-12-2025". -/
theorem pine_c2_counterexample :
    pineFormatDate (some "12/1/2025") = ("12-01-2025", none) ∧
    "12-01-2025" ≠ "01-12-2025" := by decide

/-- C2 (amended): AGNE's `normalizeDate` sends all five sample patterns
("20251201", "2025-12-1", "12/1/2025", "1-12-2025", "1/12/25") to "20251201"
with no warning; Pine State's `formatDateDDMMYYYY` sends the compact, dashed
and ISO forms to "01-12-2025" with no warning, but parses "12/1/2025"
day-first and "1/12/25" month-first, both yielding "12-01-2025" (day 12,
month 1) with no warning. -/
theorem c2_date_patterns_amended :
    agneNormalizeDate (some "20251201") = ("20251201", none) ∧
    agneNormalizeDate (some "2025-12-1") = ("20251201", none) ∧
    agneNormalizeDate (some "12/1/2025") = ("20251201", none) ∧
    agneNormalizeDate (some "1-12-2025") = ("20251201", none) ∧
    agneNormalizeDate (some "1/12/25") = ("20251201", none) ∧
    pineFormatDate (some "20251201") = ("01-12-2025", none) ∧
    pineFormatDate (some "2025-12-1") = ("01-12-2025", none) ∧
    pineFormatDate (some "1-12-2025") = ("01-12-2025", none) ∧
    pineFormatDate (some "12/1/2025") = ("12-01-2025", none) ∧
    pineFormatDate (some "1/12/25") = ("12-01-2025", none) := by decide

/-- C4 counterexample: Pine State's date normalizer emits "5-13-2025" — month
13 — as the formatted date "05-13-2025" with no warning: it performs no
month/day range validation at all. -/
theorem pine_c4_counterexample :
    pineFormatDate (some "5-13-2025") = ("05-13-2025", none) ∧
    "05-13-2025" ≠ "" := by decide

/-- C4 (amended): AGNE's `normalizeDate` does validate ranges — any matched
date whose padded month is outside 1..12 or padded day outside 1..31 yields an
empty value plus the warning `Invalid date: "<original>"` and is never emitted
formatted; Pine State's `formatDateDDMMYYYY` performs no range validation and
emits such matched dates formatted with no warning. -/
theorem c4_range_validation_amended :
    (∀ raw y m d, agneDateMatch (jsTrim raw) = some (y, m, d) →
      (parseIntDigits (padStartZeros m 2) < 1 ∨ 12 < parseIntDigits (padStartZeros m 2) ∨
        parseIntDigits (padStartZeros d 2) < 1 ∨ 31 < parseIntDigits (padStartZeros d 2)) →
      agneNormalizeDate (some raw) = ("", some ("Invalid date: \"" ++ raw ++ "\""))) ∧
    pineFormatDate (some "5-13-2025") = ("05-13-2025", none) := by
  refine ⟨?_, by decide⟩
  intro raw y m d hm hr
  by_cases hraw : raw = ""
  · rw [hraw] at hm
    rw [show agneDateMatch (jsTrim "") = none from by decide] at hm
    exact absurd hm (by simp)
  · simp only [agneNormalizeDate]
    rw [if_neg hraw, hm]
    simp only []
    rw [if_pos hr]

/-- C4 witness: the matched date "2025-13-5" (month 13) is rejected by AGNE's
range check with an `Invalid date` warning. -/
theorem c4_range_validation_amended_witness :
    agneNormalizeDate (some "2025-13-5") =
      ("", some ("Invalid date: \"" ++ "2025-13-5" ++ "\"")) :=
  c4_range_validation_amended.1 "2025-13-5" "2025" "13" "5" (by decide) (by decide)

/-- C3 counterexample: on a row with no UPC column, AGNE's `transformRow`
stores JS `undefined` (modelled `none`) under the contract key "UPC" — a
non-string value for a `getOutputColumns()` key, refuting the claim that every
contract key carries a string. -/
theorem c3_output_contract_counterexample :
    getCell (agneTransformRow [] [] ⟨none⟩).1 "UPC" = some none ∧
    "UPC" ∈ agneGetOutputColumns := by decide

/-- C3 (amended): both transformers populate every `getOutputColumns()` key;
every Pine State value and every AGNE value other than "UPC" is a string; the
AGNE "UPC" value is a string whenever the input row has a UPC cell, and is the
unchanged falsy input (possibly JS `undefined`) otherwise. -/
theorem c3_output_contract_amended (row dm : List (String × String)) (opts : TransformOptions) :
    (∀ c ∈ agneGetOutputColumns, ∃ v, getCell (agneTransformRow row dm opts).1 c = some v) ∧
    (∀ c ∈ agneGetOutputColumns, c ≠ "UPC" →
      ∃ s, getCell (agneTransformRow row dm opts).1 c = some (some s)) ∧
    (∀ u, getColumnValue row "UPC" = some u →
      ∃ s, getCell (agneTransformRow row dm opts).1 "UPC" = some (some s)) ∧
    (∀ c ∈ pineGetOutputColumns, ∃ s, getCell (pineTransformRow row dm opts).1 c = some s) := by
  refine ⟨?_, ?_, ?_, ?_⟩
  · intro c hc
    fin_cases hc <;> exact ⟨_, rfl⟩
  · intro c hc hne
    fin_cases hc
    case _ => exact ⟨_, rfl⟩
    all_goals first
      | exact absurd rfl hne
      | exact ⟨_, rfl⟩
  · intro u hu
    have hcell : getCell (agneTransformRow row dm opts).1 "UPC" =
        some (transformUPC (getColumnValue row "UPC")) := rfl
    obtain ⟨s, hs⟩ := transformUPC_some u
    exact ⟨s, by rw [hcell, hu, hs]⟩
  · intro c hc
    fin_cases hc <;> exact ⟨_, rfl⟩

/-- C3 witness: concrete instances of the amended contract on a row carrying
only a UPC column. -/
theorem c3_output_contract_amended_witness :
    (∃ v, getCell (agneTransformRow [("UPC", "0123")] [] ⟨none⟩).1 "Fee ID" = some v) ∧
    (∃ s, getCell (agneTransformRow [("UPC", "0123")] [] ⟨none⟩).1 "Description" =
      some (some s)) ∧
    (∃ s, getCell (agneTransformRow [("UPC", "0123")] [] ⟨none⟩).1 "UPC" = some (some s)) ∧
    (∃ s, getCell (pineTransformRow [("UPC", "0123")] [] ⟨none⟩).1 "UPC" = some s) := by
  have h := c3_output_contract_amended [("UPC", "0123")] [] ⟨none⟩
  exact ⟨h.1 "Fee ID" (by decide), h.2.1 "Description" (by decide) (by decide),
    h.2.2.1 "0123" (by decide), h.2.2.2 "UPC" (by decide)⟩

/-- The error message thrown by vendorRegistry.js for an unknown vendor id. -/
def unknownVendorMsg (vendorId : String) : String :=
  "Vendor \"" ++ vendorId ++ "\" not found. Available vendors: " ++
    String.intercalate ", " (vendorRegistry.map Prod.fst)

/-- C8: for every vendor identifier that is not a key of the vendor registry,
`getVendorTransformer` fails with an error whose message contains both the
requested identifier and the set of known vendor identifiers, and never
returns any transformer; an explicitly supplied (nonempty) unknown id makes
the dispatch wrapper fail the run rather than fall back to the default
vendor. -/
theorem registry_c8_unknown_vendor (vendorId : String) (row dm : List (String × String))
    (od : Option (List (String × String))) (h : vendorId ≠ "AGNE") :
    getVendorTransformer vendorId = Except.error (unknownVendorMsg vendorId) ∧
    (∀ t, getVendorTransformer vendorId ≠ Except.ok t) ∧
    (∃ a b, unknownVendorMsg vendorId = a ++ vendorId ++ b) ∧
    (∃ a, unknownVendorMsg vendorId = a ++ "AGNE") ∧
    (vendorId ≠ "" →
      transformRowDispatch row dm ⟨some vendorId, od⟩ =
        Except.error (unknownVendorMsg vendorId)) := by
  have herr : getVendorTransformer vendorId = Except.error (unknownVendorMsg vendorId) := by
    unfold getVendorTransformer
    rw [show getCell vendorRegistry vendorId = none from by
      simp [getCell, vendorRegistry, List.find?, decide_eq_false (Ne.symm h)]]
    rfl
  refine ⟨herr, fun t ht => by rw [herr] at ht; exact Except.noConfusion ht, ?_, ?_, ?_⟩
  · refine ⟨"Vendor \"", "\" not found. Available vendors: " ++
      String.intercalate ", " (vendorRegistry.map Prod.fst), ?_⟩
    rw [unknownVendorMsg, String.append_assoc, String.append_assoc]
  · exact ⟨"Vendor \"" ++ vendorId ++ "\" not found. Available vendors: ",
      by rw [unknownVendorMsg, show String.intercalate ", " (vendorRegistry.map Prod.fst) =
        "AGNE" from rfl]⟩
  · intro hne
    unfold transformRowDispatch
    rw [show (if jsTruthy (some vendorId) = true then orEmpty (some vendorId)
        else getDefaultVendor) = vendorId from by simp [jsTruthy, orEmpty, hne]]
    simp only [herr]

/-- C8 witness: the repository's own second transformer id is not registered;
requesting "PINE_STATE_SPIRITS" fails with the descriptive error and the
dispatch wrapper propagates it. -/
theorem registry_c8_unknown_vendor_witness :
    getVendorTransformer "PINE_STATE_SPIRITS" =
      Except.error (unknownVendorMsg "PINE_STATE_SPIRITS") ∧
    transformRowDispatch [] [] ⟨some "PINE_STATE_SPIRITS", none⟩ =
      Except.error (unknownVendorMsg "PINE_STATE_SPIRITS") := by
  have h := registry_c8_unknown_vendor "PINE_STATE_SPIRITS" [] [] none (by decide)
  exact ⟨h.1, h.2.2.2.2 (by decide)⟩

/-- Department preservation emits no warning or exactly the department-changed
message. -/
theorem preserveDepartmentID_warning_form (a b : Option String) :
    (preserveDepartmentID a b).2 = none ∨
    (preserveDepartmentID a b).2 = some ("Department ID changed from \"" ++ jsShow b ++
      "\" to \"" ++ jsShow a ++ "\" - using original value") := by
  unfold preserveDepartmentID
  repeat' split
  all_goals first | exact Or.inl rfl | exact Or.inr rfl

/-- TAX1 mapping emits no warning or exactly the unexpected-value message. -/
theorem transformTAX1_warning_form (a : Option String) :
    (transformTAX1 a).2 = none ∨
    (transformTAX1 a).2 = some ("TAX1 has unexpected value: \"" ++ orEmpty a ++
      "\" (expected Y or N)") := by
  simp only [transformTAX1]
  repeat' split
  all_goals first | exact Or.inl rfl | exact Or.inr rfl

/-- AGNE date normalization emits no warning, an invalid-date message, or a
could-not-parse message. -/
theorem agneNormalizeDate_warning_form (a : Option String) :
    (agneNormalizeDate a).2 = none ∨
    (agneNormalizeDate a).2 = some ("Invalid date: \"" ++ orEmpty a ++ "\"") ∨
    (agneNormalizeDate a).2 = some ("Could not parse date: \"" ++ orEmpty a ++ "\"") := by
  rcases a with _ | raw
  · exact Or.inl rfl
  · simp only [agneNormalizeDate]
    repeat' split
    all_goals first
      | exact Or.inl rfl
      | exact Or.inr (Or.inl rfl)
      | exact Or.inr (Or.inr rfl)

/-- AGNE deposit resolution pushes no warning or exactly the missing-mapping
message naming the item key. -/
theorem agneDeposit_warning_form (dm : List (String × String)) (e : Option String) (ik : String) :
    (agneDeposit dm e ik).2 = [] ∨
    (agneDeposit dm e ik).2 = ["No deposit mapping found for UPC/Item: " ++ ik] := by
  unfold agneDeposit
  repeat' split
  all_goals first | exact Or.inl rfl | exact Or.inr rfl

/-- Pine State date formatting emits no warning or exactly the could-not-parse
message for the cleaned input. -/
theorem pineFormatDate_warning_form (a : Option String) :
    (pineFormatDate a).2 = none ∨
    (pineFormatDate a).2 = some ("Could not parse date: \"" ++
      jsTrim (stripOuterQuotes (jsTrim (orEmpty a))) ++ "\"") := by
  rcases a with _ | ds
  · exact Or.inl rfl
  · simp only [pineFormatDate]
    repeat' split
    all_goals first | exact Or.inl rfl | exact Or.inr rfl

/-- The possible data-quality warning shapes of the AGNE transformer. -/
def agneDataQualityWarning (w : String) : Prop :=
  (∃ x y, w = "Department ID changed from \"" ++ x ++ "\" to \"" ++ y ++
    "\" - using original value") ∨
  (∃ x, w = "TAX1 has unexpected value: \"" ++ x ++ "\" (expected Y or N)") ∨
  (∃ x, w = "No deposit mapping found for UPC/Item: " ++ x) ∨
  (∃ x, w = "Invalid date: \"" ++ x ++ "\"") ∨
  (∃ x, w = "Could not parse date: \"" ++ x ++ "\"")

/-- The possible data-quality warning shapes of the Pine State transformer. -/
def pineDataQualityWarning (w : String) : Prop :=
  (∃ x y, w = "Could not normalize UPC for item: " ++ x ++ " (original: \"" ++ y ++ "\")") ∨
  (∃ x, w = "Could not parse date: \"" ++ x ++ "\"") ∨
  (∃ x, w = "Invalid retail price for item: " ++ x) ∨
  (∃ x, w = "Invalid sale price for item: " ++ x) ∨
  (∃ x, w = "Invalid agency cost for item: " ++ x) ∨
  (∃ x, w = "Invalid agency sale cost for item: " ++ x)

/-- C9: both vendor transformers are total functions of their three inputs,
returning a transformedRow/warnings pair for every row, deposit mapping and
options value, and every entry of the returned warning list is one of the
per-row data-quality messages — no condition is signalled any other way. -/
theorem c9_never_throws (row dm : List (String × String)) (opts : TransformOptions) :
    (∃ out ws, agneTransformRow row dm opts = (out, ws)) ∧
    (∃ out ws, pineTransformRow row dm opts = (out, ws)) ∧
    (∀ w ∈ (agneTransformRow row dm opts).2, agneDataQualityWarning w) ∧
    (∀ w ∈ (pineTransformRow row dm opts).2, pineDataQualityWarning w) := by
  refine ⟨⟨_, _, rfl⟩, ⟨_, _, rfl⟩, ?_, ?_⟩
  · intro w hw
    simp only [agneTransformRow, List.mem_append] at hw
    rcases hw with ((((((hw | hw) | hw) | hw) | hw) | hw) | hw)
    · have h := optToList_mem _ _ hw
      rcases preserveDepartmentID_warning_form _ _ with h0 | h0 <;> rw [h0] at h
      · exact absurd h (by simp)
      · exact Or.inl ⟨_, _, (Option.some.inj h).symm⟩
    · have h := optToList_mem _ _ hw
      rcases transformTAX1_warning_form _ with h0 | h0 <;> rw [h0] at h
      · exact absurd h (by simp)
      · exact Or.inr (Or.inl ⟨_, (Option.some.inj h).symm⟩)
    · rcases agneDeposit_warning_form _ _ _ with h0 | h0 <;> rw [h0] at hw
      · simp at hw
      · exact Or.inr (Or.inr (Or.inl ⟨_, by simpa using hw⟩))
    · have h := optToList_mem _ _ hw
      rcases agneNormalizeDate_warning_form _ with h0 | h0 | h0 <;> rw [h0] at h
      · exact absurd h (by simp)
      · exact Or.inr (Or.inr (Or.inr (Or.inl ⟨_, (Option.some.inj h).symm⟩)))
      · exact Or.inr (Or.inr (Or.inr (Or.inr ⟨_, (Option.some.inj h).symm⟩)))
    · have h := optToList_mem _ _ hw
      rcases agneNormalizeDate_warning_form _ with h0 | h0 | h0 <;> rw [h0] at h
      · exact absurd h (by simp)
      · exact Or.inr (Or.inr (Or.inr (Or.inl ⟨_, (Option.some.inj h).symm⟩)))
      · exact Or.inr (Or.inr (Or.inr (Or.inr ⟨_, (Option.some.inj h).symm⟩)))
    · have h := optToList_mem _ _ hw
      rcases agneNormalizeDate_warning_form _ with h0 | h0 | h0 <;> rw [h0] at h
      · exact absurd h (by simp)
      · exact Or.inr (Or.inr (Or.inr (Or.inl ⟨_, (Option.some.inj h).symm⟩)))
      · exact Or.inr (Or.inr (Or.inr (Or.inr ⟨_, (Option.some.inj h).symm⟩)))
    · have h := optToList_mem _ _ hw
      rcases agneNormalizeDate_warning_form _ with h0 | h0 | h0 <;> rw [h0] at h
      · exact absurd h (by simp)
      · exact Or.inr (Or.inr (Or.inr (Or.inl ⟨_, (Option.some.inj h).symm⟩)))
      · exact Or.inr (Or.inr (Or.inr (Or.inr ⟨_, (Option.some.inj h).symm⟩)))
  · intro w hw
    simp only [pineTransformRow, List.mem_append] at hw
    rcases hw with ((((((hw | hw) | hw) | hw) | hw) | hw) | hw)
    · split at hw
      · simp at hw
      · split at hw
        · simp at hw
          exact Or.inl ⟨_, _, hw⟩
        · simp at hw
    · have h := optToList_mem _ _ hw
      rcases pineFormatDate_warning_form _ with h0 | h0 <;> rw [h0] at h
      · exact absurd h (by simp)
      · exact Or.inr (Or.inl ⟨_, (Option.some.inj h).symm⟩)
    · have h := optToList_mem _ _ hw
      rcases pineFormatDate_warning_form _ with h0 | h0 <;> rw [h0] at h
      · exact absurd h (by simp)
      · exact Or.inr (Or.inl ⟨_, (Option.some.inj h).symm⟩)
    · split at hw
      · simp at hw
        exact Or.inr (Or.inr (Or.inl ⟨_, hw⟩))
      · simp at hw
    · split at hw
      · simp at hw
        exact Or.inr (Or.inr (Or.inr (Or.inl ⟨_, hw⟩)))
      · simp at hw
    · split at hw
      · simp at hw
        exact Or.inr (Or.inr (Or.inr (Or.inr (Or.inl ⟨_, hw⟩))))
      · simp at hw
    · split at hw
      · simp at hw
        exact Or.inr (Or.inr (Or.inr (Or.inr (Or.inr ⟨_, hw⟩))))
      · simp at hw

/-- C9 witness: the warning produced for an unexpected TAX1 value on a
concrete row is one of the data-quality shapes. -/
theorem c9_never_throws_witness :
    agneDataQualityWarning "TAX1 has unexpected value: \"X\" (expected Y or N)" :=
  (c9_never_throws [("TAX1", "X")] [] ⟨none⟩).2.2.1
    "TAX1 has unexpected value: \"X\" (expected Y or N)" (by decide)
